import Mathlib

/-!
Shallow embedding of the RV thermostat firmware
(src/Latest_worrking_heater/Latest_worrking_heater.ino, VERSION 12.2)
and verification of the specification claims about it.

Floating point values are modelled as rationals extended with an explicit
NaN element: FVal is Option of a rational, where none plays the role of NaN.
Arithmetic propagates NaN, and ordered comparisons with a NaN operand are
false, matching the IEEE semantics the C code relies on (isnan guards, and
comparisons that fail when an operand is NaN).

Display rendering, the OLED driver and string formatting are external
collaborators and are omitted; the two externally visible effects that the
claims mention, saveWiFiCredentials with empty arguments and ESP.restart,
are recorded in the state as the flags wifiCredentialsCleared and restarted.
-/

namespace RV

/-- Float model: none stands for NaN, some q for the finite value q. -/
abbrev FVal := Option ℚ

/-- The isnan test of the source. -/
def fIsNaN (x : FVal) : Bool := x.isNone

/-- NaN-propagating addition. -/
def fadd : FVal → FVal → FVal
  | some a, some b => some (a + b)
  | _, _ => none

/-- NaN-propagating multiplication. -/
def fmul : FVal → FVal → FVal
  | some a, some b => some (a * b)
  | _, _ => none

/-- NaN-propagating division; division by zero is also sent to NaN. -/
def fdiv : FVal → FVal → FVal
  | some a, some b => if b = 0 then none else some (a / b)
  | _, _ => none

/-- Comparison a < b, false whenever an operand is NaN. -/
def flt : FVal → FVal → Bool
  | some a, some b => decide (a < b)
  | _, _ => false

/-- Comparison a >= b, false whenever an operand is NaN. -/
def fge : FVal → FVal → Bool
  | some a, some b => decide (b ≤ a)
  | _, _ => false

/-- Number of smoothing slots per channel (SAMPLES in the source). -/
def SAMPLES : ℕ := 10

/-- FREEZE_GUARD_TEMP = 38.0 in the source. -/
def FREEZE_GUARD_TEMP : ℚ := 38

/-- LONG_PRESS_MS = 1000 in the source. -/
def LONG_PRESS_MS : ℕ := 1000

/-- SLEEP_PRESS_MS = 2000 in the source. -/
def SLEEP_PRESS_MS : ℕ := 2000

/-- WIFI_RESET_MS = 5000 in the source. -/
def WIFI_RESET_MS : ℕ := 5000

/-- The delay(8000) executed right after the sensor buffers are seeded. -/
def SEED_WARMUP_DELAY_MS : ℕ := 8000

/-- The delay(500) between WiFi association attempts in setup. -/
def WIFI_RETRY_DELAY_MS : ℕ := 500

/-- The temperature conversion applied at every buffer write:
newTemp * 9 / 5 + 32, with NaN propagation. -/
def c2f (t : FVal) : FVal := fadd (fdiv (fmul t (some 9)) (some 5)) (some 32)

/-- Sum of a buffer, as the C accumulation float sum = 0; sum += slot. -/
def fsum (l : List FVal) : FVal := l.foldl fadd (some 0)

/-- Global mutable state of the firmware relevant to the claims.
Button levels follow the source polarity: true is HIGH (idle, released)
and false is LOW (pressed).  heaterPin is the level written to HEATER_PIN,
eepromFreezeGuard mirrors the byte written by saveFreezeGuardState. -/
structure Sys where
  currentTemp : FVal
  targetTemp : ℚ
  humidity : FVal
  heaterEnabled : Bool
  freezeGuardEnabled : Bool
  tempReadings : List FVal
  humReadings : List FVal
  readIndex : ℕ
  upButtonStart : ℕ
  downButtonStart : ℕ
  lastUpState : Bool
  lastDownState : Bool
  longPressHandled : Bool
  displaySleepMode : Bool
  heaterPin : Bool
  lastActivityTime : ℕ
  eepromFreezeGuard : Bool
  wifiCredentialsCleared : Bool
  restarted : Bool
deriving DecidableEq, Repr

/-- State after the global initialisers, setup pin writes and
loadFreezeGuardState: currentTemp = 0.0, targetTemp = 72.0, buffers are
zero-initialised file-scope arrays, both buttons idle HIGH, heater pin LOW.
The freeze-guard flag is whatever the EEPROM byte held. -/
def initSys (fg : Bool) : Sys where
  currentTemp := some 0
  targetTemp := 72
  humidity := some 0
  heaterEnabled := false
  freezeGuardEnabled := fg
  tempReadings := List.replicate SAMPLES (some 0)
  humReadings := List.replicate SAMPLES (some 0)
  readIndex := 0
  upButtonStart := 0
  downButtonStart := 0
  lastUpState := true
  lastDownState := true
  longPressHandled := false
  displaySleepMode := false
  heaterPin := false
  lastActivityTime := 0
  eepromFreezeGuard := fg
  wifiCredentialsCleared := false
  restarted := false

/-- The seeding for-loop in loop(): for i in 0..SAMPLES-1,
tempReadings[i] = initTemp and humReadings[i] = bme.readHumidity()
(a fresh humidity read per iteration, the temperature read once). -/
def seedLoop (initTemp : FVal) (humRead : ℕ → FVal) (s : Sys) : ℕ → Sys
  | 0 => s
  | i + 1 =>
      let s2 := seedLoop initTemp humRead s i
      { s2 with tempReadings := s2.tempReadings.set i initTemp,
                humReadings := s2.humReadings.set i (humRead i) }

/-- The sensorInit block of loop(): initTemp = bme.readTemperature()*9/5+32
(no isnan check), then the seeding loop over all SAMPLES slots.  A
delay(SEED_WARMUP_DELAY_MS) follows before the loop continues. -/
def seedSensors (rawInitTemp : FVal) (humRead : ℕ → FVal) (s : Sys) : Sys :=
  seedLoop (c2f rawInitTemp) humRead s SAMPLES

/-- One sensor tick of loop() (the block guarded by SENSOR_READ_INTERVAL):
each channel writes its slot and recomputes its average only when its raw
reading is a number; the single shared readIndex then advances modulo
SAMPLES once for both channels. -/
def sensorStep (newTemp newHum : FVal) (s : Sys) : Sys :=
  let s1 :=
    if fIsNaN newTemp then s
    else
      let tr := s.tempReadings.set s.readIndex (c2f newTemp)
      { s with tempReadings := tr,
               currentTemp := fdiv (fsum tr) (some (SAMPLES : ℚ)) }
  let s2 :=
    if fIsNaN newHum then s1
    else
      let hr := s1.humReadings.set s1.readIndex newHum
      { s1 with humReadings := hr,
                humidity := fdiv (fsum hr) (some (SAMPLES : ℚ)) }
  { s2 with readIndex := (s2.readIndex + 1) % SAMPLES }

/-- The heater-control block at the end of a sensor tick.  FreezeGuard:
turn on below FREEZE_GUARD_TEMP, off at or above FREEZE_GUARD_TEMP + 2,
otherwise leave both the pin and heaterEnabled untouched.  Manual: the pin
follows heaterEnabled and the comparison with targetTemp, recomputed from
scratch. -/
def controlHeater (s : Sys) : Sys :=
  if s.freezeGuardEnabled then
    if flt s.currentTemp (some FREEZE_GUARD_TEMP) then
      { s with heaterPin := true, heaterEnabled := true }
    else if fge s.currentTemp (some (FREEZE_GUARD_TEMP + 2)) then
      { s with heaterPin := false, heaterEnabled := false }
    else s
  else
    if s.heaterEnabled && flt s.currentTemp (some s.targetTemp) then
      { s with heaterPin := true }
    else
      { s with heaterPin := false }

/-- A full sensor tick: smoothing followed by the heater decision. -/
def sensorControlTick (newTemp newHum : FVal) (s : Sys) : Sys :=
  controlHeater (sensorStep newTemp newHum s)

/-- Iterated heater evaluation over a list of smoothed temperatures,
returning the heaterEnabled value after each evaluation. -/
def runFreezeTemps (s : Sys) : List ℚ → List Bool
  | [] => []
  | t :: ts =>
      let s2 := controlHeater { s with currentTemp := some t }
      s2.heaterEnabled :: runFreezeTemps s2 ts

/-- UP button edge handling in handleButtons.  On the press edge the start
time is recorded and the shared longPressHandled flag cleared; on a release
before LONG_PRESS_MS the target is raised by one degree, capped at 90,
unless FreezeGuard is active. -/
def upEdge (now : ℕ) (currentUpState : Bool) (s : Sys) : Sys :=
  if currentUpState ≠ s.lastUpState then
    if currentUpState = false then
      { s with upButtonStart := now, longPressHandled := false,
               lastUpState := currentUpState }
    else
      let s2 :=
        if now - s.upButtonStart < LONG_PRESS_MS then
          if s.freezeGuardEnabled then s
          else { s with targetTemp := min 90 (s.targetTemp + 1) }
        else s
      { s2 with lastUpState := currentUpState }
  else s

/-- UP long-press check: while held past LONG_PRESS_MS and not yet
handled, toggle heaterEnabled and drive the pin (skipped entirely under
FreezeGuard), and latch longPressHandled in either case. -/
def upLongPress (now : ℕ) (currentUpState : Bool) (s : Sys) : Sys :=
  if currentUpState = false ∧ s.longPressHandled = false ∧
      LONG_PRESS_MS ≤ now - s.upButtonStart then
    let s2 :=
      if s.freezeGuardEnabled then s
      else { s with heaterEnabled := !s.heaterEnabled,
                    heaterPin := !s.heaterEnabled }
    { s2 with longPressHandled := true }
  else s

/-- DOWN button edge handling, symmetric to upEdge with the target lowered
by one degree and floored at 50. -/
def downEdge (now : ℕ) (currentDownState : Bool) (s : Sys) : Sys :=
  if currentDownState ≠ s.lastDownState then
    if currentDownState = false then
      { s with downButtonStart := now, longPressHandled := false,
               lastDownState := currentDownState }
    else
      let s2 :=
        if now - s.downButtonStart < LONG_PRESS_MS then
          if s.freezeGuardEnabled then s
          else { s with targetTemp := max 50 (s.targetTemp - 1) }
        else s
      { s2 with lastDownState := currentDownState }
  else s

/-- DOWN long-press check: toggles the FreezeGuard regime unconditionally,
persists it through saveFreezeGuardState, and latches longPressHandled. -/
def downLongPress (now : ℕ) (currentDownState : Bool) (s : Sys) : Sys :=
  if currentDownState = false ∧ s.longPressHandled = false ∧
      LONG_PRESS_MS ≤ now - s.downButtonStart then
    { s with freezeGuardEnabled := !s.freezeGuardEnabled,
             eepromFreezeGuard := !s.freezeGuardEnabled,
             longPressHandled := true }
  else s

/-- The two dual-button blocks at the end of handleButtons: both held in
the window from SLEEP_PRESS_MS up to but excluding WIFI_RESET_MS enters
display sleep (and returns); both held past WIFI_RESET_MS clears the
stored WiFi credentials and restarts. -/
def dualButtonChecks (now : ℕ) (currentUpState currentDownState : Bool)
    (s : Sys) : Sys :=
  if currentUpState = false ∧ currentDownState = false ∧
      SLEEP_PRESS_MS ≤ now - s.upButtonStart ∧
      SLEEP_PRESS_MS ≤ now - s.downButtonStart ∧
      now - s.upButtonStart < WIFI_RESET_MS then
    { s with displaySleepMode := true }
  else if currentUpState = false ∧ currentDownState = false ∧
      WIFI_RESET_MS ≤ now - s.upButtonStart ∧
      WIFI_RESET_MS ≤ now - s.downButtonStart then
    { s with wifiCredentialsCleared := true, restarted := true }
  else s

/-- handleButtons: activity-time update on any pressed level, then the
wake-from-sleep branch (level triggered, early return), then, when not
sleeping, the per-button edge and long-press handlers followed by the
dual-button checks, in source order. -/
def handleButtons (now : ℕ) (currentUpState currentDownState : Bool)
    (s : Sys) : Sys :=
  let s1 :=
    if currentUpState = false ∨ currentDownState = false then
      { s with lastActivityTime := now }
    else s
  if s1.displaySleepMode ∧ (currentUpState = false ∨ currentDownState = false) then
    { s1 with displaySleepMode := false }
  else if s1.displaySleepMode then s1
  else
    dualButtonChecks now currentUpState currentDownState
      (downLongPress now currentDownState
        (downEdge now currentDownState
          (upLongPress now currentUpState
            (upEdge now currentUpState s1))))

/-- One polled invocation of handleButtons: the millis() value and the two
raw button levels (true = HIGH = released, false = LOW = pressed). -/
structure BtnInput where
  now : ℕ
  upState : Bool
  downState : Bool
deriving DecidableEq, Repr

/-- Folding handleButtons over a sequence of polls. -/
def runButtons (s : Sys) : List BtnInput → Sys
  | [] => s
  | i :: rest => runButtons (handleButtons i.now i.upState i.downState s) rest

/-- Number of polls at which an observed field changes value. -/
def countChangesBy {α : Type} [DecidableEq α] (f : Sys → α) :
    Sys → List BtnInput → ℕ
  | _, [] => 0
  | s, i :: rest =>
      let s2 := handleButtons i.now i.upState i.downState s
      (if f s2 = f s then 0 else 1) + countChangesBy f s2 rest

/-- Number of polls at which the display transitions into sleep. -/
def sleepEntries : Sys → List BtnInput → ℕ
  | _, [] => 0
  | s, i :: rest =>
      let s2 := handleButtons i.now i.upState i.downState s
      (if s.displaySleepMode = false ∧ s2.displaySleepMode = true then 1 else 0)
        + sleepEntries s2 rest

/-- Poll sequence of an isolated UP press: press edge at t0, further polls
while held at the times in mids, release observed at tk.  The DOWN button
stays released throughout. -/
def pressInputsUp (t0 : ℕ) (mids : List ℕ) (tk : ℕ) : List BtnInput :=
  ⟨t0, false, true⟩ :: (mids.map (fun t => ⟨t, false, true⟩) ++ [⟨tk, true, true⟩])

/-- Poll sequence of an isolated DOWN press. -/
def pressInputsDown (t0 : ℕ) (mids : List ℕ) (tk : ℕ) : List BtnInput :=
  ⟨t0, true, false⟩ :: (mids.map (fun t => ⟨t, true, false⟩) ++ [⟨tk, true, true⟩])

/-- Both buttons pressed continuously from time 0, with handleButtons
polled at 0, 1000, 2000, 2250, 2500, 5000 and 5250 milliseconds. -/
def bothHeldTrace : List BtnInput :=
  [⟨0, false, false⟩, ⟨1000, false, false⟩, ⟨2000, false, false⟩,
   ⟨2250, false, false⟩, ⟨2500, false, false⟩, ⟨5000, false, false⟩,
   ⟨5250, false, false⟩]

/-- The /target web handler body (after authentication, with a temp
argument): add the delta, clamp below at 50 and above at 90.  There is no
FreezeGuard check in this handler. -/
def handleTarget (change : ℚ) (s : Sys) : Sys :=
  let t1 := s.targetTemp + change
  let t2 := if t1 < 50 then 50 else t1
  let t3 := if t2 > 90 then 90 else t2
  { s with targetTemp := t3 }

/-- The /freezeguard web handler body with a state argument. -/
def handleFreezeGuard (stateArg : Bool) (s : Sys) : Sys :=
  { s with freezeGuardEnabled := stateArg, eepromFreezeGuard := stateArg }

/-- The currentTemp field of the /data JSON: either the quoted string
TEMP SENSOR FAULT or a plain numeral (rendered with one decimal). -/
inductive TempField where
  | fault : TempField
  | number : ℚ → TempField
deriving DecidableEq, Repr

/-- handleData chooses the currentTemp field with an isnan test. -/
def handleDataCurrentTemp (s : Sys) : TempField :=
  if fIsNaN s.currentTemp then TempField.fault
  else TempField.number (s.currentTemp.getD 0)

/-- State reached when the sensor returns NaN at seeding and at the next
three sensor ticks: no valid temperature sample was ever obtained. -/
def neverValidRun : Sys :=
  sensorStep none none (sensorStep none none (sensorStep none none
    (seedSensors none (fun _ => none) (initSys false))))

/-- State seeded from a NaN temperature read while the ten successive
humidity reads return 50 on the first iteration and 51 afterwards. -/
def nanSeeded : Sys :=
  seedSensors none (fun i => some (if i = 0 then 50 else 51)) (initSys false)

/-- loadWiFiCredentials for the SSID field: read 32 bytes from offset
SSID_START = 0 and append every byte that is not zero. -/
def loadStoredSSID (rom : ℕ → ℕ) : List ℕ :=
  ((List.range 32).map (fun i => rom i)).filter (fun c => c ≠ 0)

/-- The association wait loop of setup: while not connected and fewer than
30 attempts, delay 500 ms and retry.  conn k is the WiFi status observed
at the guard check after k attempts; the fuel argument mirrors the bound. -/
def wifiWait (conn : ℕ → Bool) : ℕ → ℕ → ℕ
  | attempts, 0 => attempts
  | attempts, fuel + 1 =>
      if conn attempts = true ∨ 30 ≤ attempts then attempts
      else wifiWait conn (attempts + 1) fuel

/-- Attempts consumed by the association loop. -/
def wifiAttempts (conn : ℕ → Bool) : ℕ := wifiWait conn 0 30

/-- Top-level device mode after boot. -/
inductive BootMode where
  | provisioning : BootMode
  | normal : BootMode
deriving DecidableEq, Repr

/-- The boot decision of setup: an SSID shorter than 2 characters enters
setup mode (provisioning); otherwise the association loop runs and the
final status decides between setupNormalMode and enterSetupMode. -/
def bootMode (rom : ℕ → ℕ) (conn : ℕ → Bool) : BootMode :=
  if (loadStoredSSID rom).length < 2 then BootMode.provisioning
  else if conn (wifiAttempts conn) = true then BootMode.normal
  else BootMode.provisioning

end RV

namespace RV

/-- Claim C1: with FreezeGuard enabled, every heater evaluation turns the
output on when the smoothed temperature is strictly below 38.0, off when
it is at or above 40.0, and keeps the previous value in the dead band;
the smoothed sequence 39.5, 37, 39, 41 yields the heaterOn sequence
previous value, true, true, false. -/
theorem freeze_guard_hysteresis (s : Sys) (hfg : s.freezeGuardEnabled = true) :
    (∀ x : ℚ, s.currentTemp = some x →
      (x < 38 → (controlHeater s).heaterEnabled = true ∧
        (controlHeater s).heaterPin = true) ∧
      (40 ≤ x → (controlHeater s).heaterEnabled = false ∧
        (controlHeater s).heaterPin = false) ∧
      (38 ≤ x → x < 40 → (controlHeater s).heaterEnabled = s.heaterEnabled ∧
        (controlHeater s).heaterPin = s.heaterPin)) ∧
    (∀ b : Bool, runFreezeTemps { s with heaterEnabled := b } [39.5, 37, 39, 41]
      = [b, true, true, false]) := by
  constructor
  · intro x hx
    refine ⟨fun h => ?_, fun h => ?_, fun h1 h2 => ?_⟩
    · simp [controlHeater, hfg, hx, flt, FREEZE_GUARD_TEMP, h]
    · have hnlt : ¬ x < 38 := by linarith
      have hge : (38 + 2 : ℚ) ≤ x := by linarith
      simp [controlHeater, hfg, hx, flt, fge, FREEZE_GUARD_TEMP, hnlt, hge]
    · have hnlt : ¬ x < 38 := not_lt.mpr h1
      have hnge : ¬ (38 + 2 : ℚ) ≤ x := by linarith
      simp [controlHeater, hfg, hx, flt, fge, FREEZE_GUARD_TEMP, hnlt, hnge]
  · intro b
    norm_num [runFreezeTemps, controlHeater, hfg, flt, fge, FREEZE_GUARD_TEMP]

/-- Witness for C1 at a concrete state. -/
theorem freeze_guard_hysteresis_witness :
    (controlHeater { initSys true with currentTemp := some 37 }).heaterEnabled
      = true ∧
    runFreezeTemps { initSys true with heaterEnabled := false }
      [39.5, 37, 39, 41] = [false, true, true, false] := by
  refine ⟨?_, ?_⟩
  · exact (((freeze_guard_hysteresis
      { initSys true with currentTemp := some 37 } rfl).1 37 rfl).1
        (by norm_num)).1
  · exact (freeze_guard_hysteresis (initSys true) rfl).2 false

/-- Claim C2: with FreezeGuard disabled, each evaluation recomputes the
actuator output from scratch as heaterEnabled AND smoothedTemp less than
targetTemp, leaving the armed latch and the target untouched. -/
theorem manual_regime_tick (s : Sys) (hfg : s.freezeGuardEnabled = false) :
    (controlHeater s).heaterPin
        = (s.heaterEnabled && flt s.currentTemp (some s.targetTemp)) ∧
    (controlHeater s).heaterEnabled = s.heaterEnabled ∧
    (controlHeater s).targetTemp = s.targetTemp := by
  by_cases h : (s.heaterEnabled && flt s.currentTemp (some s.targetTemp)) = true
  · simp [controlHeater, hfg, h]
  · simp [controlHeater, hfg, h]

/-- Witness for C2: armed with smoothed 60 below target 72 drives the pin
high, and the same equation holds. -/
theorem manual_regime_tick_witness :
    (controlHeater { initSys false with
                      heaterEnabled := true,
                      currentTemp := some 60 }).heaterPin = true := by
  have h := (manual_regime_tick { initSys false with
                                   heaterEnabled := true,
                                   currentTemp := some 60 } rfl).1
  exact h.trans (by decide)

end RV

namespace RV

/-- Folding the NaN-propagating addition over an all-numeric buffer. -/
theorem fsum_foldl (l : List ℚ) :
    ∀ a : ℚ, (l.map some).foldl fadd (some a) = some (a + l.sum) := by
  induction l with
  | nil => intro a; simp
  | cons x xs ih =>
      intro a
      simp only [List.map_cons, List.foldl_cons, fadd, List.sum_cons]
      rw [ih (a + x)]
      exact congrArg some (by ring)

/-- The buffer sum of an all-numeric buffer is the numeric sum. -/
theorem fsum_map_some (l : List ℚ) : fsum (l.map some) = some l.sum := by
  have h := fsum_foldl l 0
  simpa [fsum] using h

/-- Claim C3: on a sensor tick after seeding, a valid reading overwrites
the slot at the shared write index (temperature converted by 9/5 + 32) and
the reported value is the arithmetic mean of all ten slots; a NaN reading
leaves the slot untouched and the stale buffer keeps determining the
reported average; the single shared index advances modulo ten exactly once
for both channels. -/
theorem sensor_smoothing_step (newTemp newHum : FVal) (s : Sys)
    (hlen : s.tempReadings.length = SAMPLES)
    (hhlen : s.humReadings.length = SAMPLES) (_hidx : s.readIndex < SAMPLES) :
    (∀ v : ℚ, newTemp = some v →
      (sensorStep newTemp newHum s).tempReadings
          = s.tempReadings.set s.readIndex (some (v * 9 / 5 + 32)) ∧
      (sensorStep newTemp newHum s).currentTemp
          = fdiv (fsum ((sensorStep newTemp newHum s).tempReadings))
              (some (SAMPLES : ℚ)) ∧
      (∀ l : List ℚ, (sensorStep newTemp newHum s).tempReadings = l.map some →
        (sensorStep newTemp newHum s).currentTemp = some (l.sum / 10))) ∧
    (newTemp = none →
      (sensorStep newTemp newHum s).tempReadings = s.tempReadings ∧
      (s.currentTemp = fdiv (fsum s.tempReadings) (some (SAMPLES : ℚ)) →
        (sensorStep newTemp newHum s).currentTemp
          = fdiv (fsum ((sensorStep newTemp newHum s).tempReadings))
              (some (SAMPLES : ℚ)))) ∧
    (∀ w : ℚ, newHum = some w →
      (sensorStep newTemp newHum s).humReadings
          = s.humReadings.set s.readIndex (some w) ∧
      (sensorStep newTemp newHum s).humidity
          = fdiv (fsum ((sensorStep newTemp newHum s).humReadings))
              (some (SAMPLES : ℚ)) ∧
      (∀ l : List ℚ, (sensorStep newTemp newHum s).humReadings = l.map some →
        (sensorStep newTemp newHum s).humidity = some (l.sum / 10))) ∧
    (newHum = none →
      (sensorStep newTemp newHum s).humReadings = s.humReadings ∧
      (s.humidity = fdiv (fsum s.humReadings) (some (SAMPLES : ℚ)) →
        (sensorStep newTemp newHum s).humidity
          = fdiv (fsum ((sensorStep newTemp newHum s).humReadings))
              (some (SAMPLES : ℚ)))) ∧
    (sensorStep newTemp newHum s).readIndex = (s.readIndex + 1) % SAMPLES ∧
    (sensorStep newTemp newHum s).tempReadings.length = SAMPLES ∧
    (sensorStep newTemp newHum s).humReadings.length = SAMPLES := by
  refine ⟨?_, ?_, ?_, ?_, ?_, ?_, ?_⟩
  · intro v hv
    subst hv
    have htr : (sensorStep (some v) newHum s).tempReadings
        = s.tempReadings.set s.readIndex (some (v * 9 / 5 + 32)) := by
      rcases newHum with _ | w <;>
        norm_num [sensorStep, fIsNaN, c2f, fmul, fdiv, fadd]
    have hct : (sensorStep (some v) newHum s).currentTemp
        = fdiv (fsum ((sensorStep (some v) newHum s).tempReadings))
            (some (SAMPLES : ℚ)) := by
      rcases newHum with _ | w <;>
        norm_num [sensorStep, fIsNaN, c2f, fmul, fdiv, fadd]
    refine ⟨htr, hct, ?_⟩
    intro l hl
    rw [hct, hl, fsum_map_some]
    norm_num [fdiv, SAMPLES]
  · intro hv
    subst hv
    have h1 : (sensorStep none newHum s).tempReadings = s.tempReadings := by
      rcases newHum with _ | w <;> simp [sensorStep, fIsNaN]
    have h2 : (sensorStep none newHum s).currentTemp = s.currentTemp := by
      rcases newHum with _ | w <;> simp [sensorStep, fIsNaN]
    exact ⟨h1, fun hm => by rw [h2, h1, hm]⟩
  · intro w hw
    subst hw
    have hhr : (sensorStep newTemp (some w) s).humReadings
        = s.humReadings.set s.readIndex (some w) := by
      rcases newTemp with _ | v <;> simp [sensorStep, fIsNaN]
    have hhm : (sensorStep newTemp (some w) s).humidity
        = fdiv (fsum ((sensorStep newTemp (some w) s).humReadings))
            (some (SAMPLES : ℚ)) := by
      rcases newTemp with _ | v <;> simp [sensorStep, fIsNaN]
    refine ⟨hhr, hhm, ?_⟩
    intro l hl
    rw [hhm, hl, fsum_map_some]
    norm_num [fdiv, SAMPLES]
  · intro hw
    subst hw
    have h1 : (sensorStep newTemp none s).humReadings = s.humReadings := by
      rcases newTemp with _ | v <;> simp [sensorStep, fIsNaN]
    have h2 : (sensorStep newTemp none s).humidity = s.humidity := by
      rcases newTemp with _ | v <;> simp [sensorStep, fIsNaN]
    exact ⟨h1, fun hm => by rw [h2, h1, hm]⟩
  · rcases newTemp with _ | v <;> rcases newHum with _ | w <;>
      simp [sensorStep, fIsNaN]
  · rcases newTemp with _ | v <;> rcases newHum with _ | w <;>
      simp [sensorStep, fIsNaN, hlen]
  · rcases newTemp with _ | v <;> rcases newHum with _ | w <;>
      simp [sensorStep, fIsNaN, hhlen]

/-- Witness for C3: one valid tick on the freshly booted state writes
temperature slot 0 with 20 * 9/5 + 32 = 68 and humidity slot 0 with 40,
reporting the means 68 / 10 and 40 / 10. -/
theorem sensor_smoothing_step_witness :
    (sensorStep (some 20) (some 40) (initSys false)).readIndex = 1 ∧
    (sensorStep (some 20) (some 40) (initSys false)).currentTemp
      = some (34 / 5) ∧
    (sensorStep (some 20) (some 40) (initSys false)).humidity = some 4 := by
  have h := sensor_smoothing_step (some 20) (some 40) (initSys false)
    (by decide) (by decide) (by decide)
  have hl : (sensorStep (some 20) (some 40) (initSys false)).tempReadings
      = List.map some [68, 0, 0, 0, 0, 0, 0, 0, 0, 0] := by
    rw [(h.1 20 rfl).1]
    have hv : (20 * 9 / 5 + 32 : ℚ) = 68 := by norm_num
    rw [hv]
    rfl
  have h2 := (h.1 20 rfl).2.2 [68, 0, 0, 0, 0, 0, 0, 0, 0, 0] hl
  have hlh : (sensorStep (some 20) (some 40) (initSys false)).humReadings
      = List.map some [40, 0, 0, 0, 0, 0, 0, 0, 0, 0] := by
    rw [(h.2.2.1 40 rfl).1]
    rfl
  have h3 := (h.2.2.1 40 rfl).2.2 [40, 0, 0, 0, 0, 0, 0, 0, 0, 0] hlh
  refine ⟨by simpa [SAMPLES, initSys] using h.2.2.2.2.1, ?_, ?_⟩
  · rw [h2]
    norm_num
  · rw [h3]
    norm_num

end RV

namespace RV

/-- Running a poll list in two pieces. -/
theorem runButtons_append (s : Sys) (l1 l2 : List BtnInput) :
    runButtons s (l1 ++ l2) = runButtons (runButtons s l1) l2 := by
  induction l1 generalizing s with
  | nil => rfl
  | cons i t ih => simp [runButtons, ih]

/-- Change counting splits over concatenation. -/
theorem countChangesBy_append {α : Type} [DecidableEq α] (f : Sys → α)
    (s : Sys) (l1 l2 : List BtnInput) :
    countChangesBy f s (l1 ++ l2)
      = countChangesBy f s l1 + countChangesBy f (runButtons s l1) l2 := by
  induction l1 generalizing s with
  | nil => simp [countChangesBy, runButtons]
  | cons i t ih =>
      simp [countChangesBy, runButtons, ih, Nat.add_assoc]

/-- Poll observing the UP press edge while DOWN stays released. -/
theorem tick_up_press (now : ℕ) (s : Sys) (hsl : s.displaySleepMode = false)
    (hup : s.lastUpState = true) (hdn : s.lastDownState = true) :
    handleButtons now false true s
      = { s with lastActivityTime := now, upButtonStart := now,
                 longPressHandled := false, lastUpState := false } := by
  simp [handleButtons, upEdge, upLongPress, downEdge, downLongPress,
        dualButtonChecks, hsl, hup, hdn, Nat.sub_self, LONG_PRESS_MS,
        SLEEP_PRESS_MS, WIFI_RESET_MS]

/-- Poll while UP stays held, before the long press fires or after it has
been latched: only the activity time moves. -/
theorem tick_up_hold (now : ℕ) (s : Sys) (hsl : s.displaySleepMode = false)
    (hup : s.lastUpState = false) (hdn : s.lastDownState = true)
    (hno : s.longPressHandled = true ∨ now - s.upButtonStart < LONG_PRESS_MS) :
    handleButtons now false true s = { s with lastActivityTime := now } := by
  rcases hno with h | h
  · simp [handleButtons, upEdge, upLongPress, downEdge, downLongPress,
          dualButtonChecks, hsl, hup, hdn, h]
  · simp [handleButtons, upEdge, upLongPress, downEdge, downLongPress,
          dualButtonChecks, hsl, hup, hdn, not_le.mpr h]

/-- Poll at which the UP long press fires in the Manual regime. -/
theorem tick_up_fire (now : ℕ) (s : Sys) (hsl : s.displaySleepMode = false)
    (hup : s.lastUpState = false) (hdn : s.lastDownState = true)
    (hha : s.longPressHandled = false) (hfg : s.freezeGuardEnabled = false)
    (hge : LONG_PRESS_MS ≤ now - s.upButtonStart) :
    handleButtons now false true s
      = { s with lastActivityTime := now, heaterEnabled := !s.heaterEnabled,
                 heaterPin := !s.heaterEnabled, longPressHandled := true } := by
  simp [handleButtons, upEdge, upLongPress, downEdge, downLongPress,
        dualButtonChecks, hsl, hup, hdn, hha, hfg, hge]

/-- Poll at which the UP long press latches under FreezeGuard: the toggle
is suppressed but longPressHandled is still set. -/
theorem tick_up_fire_fg (now : ℕ) (s : Sys) (hsl : s.displaySleepMode = false)
    (hup : s.lastUpState = false) (hdn : s.lastDownState = true)
    (hha : s.longPressHandled = false) (hfg : s.freezeGuardEnabled = true)
    (hge : LONG_PRESS_MS ≤ now - s.upButtonStart) :
    handleButtons now false true s
      = { s with lastActivityTime := now, longPressHandled := true } := by
  simp [handleButtons, upEdge, upLongPress, downEdge, downLongPress,
        dualButtonChecks, hsl, hup, hdn, hha, hfg, hge]

/-- Poll observing the UP release after at least LONG_PRESS_MS of hold:
no short-press action is applied. -/
theorem tick_up_release_long (now : ℕ) (s : Sys)
    (hsl : s.displaySleepMode = false) (hup : s.lastUpState = false)
    (hdn : s.lastDownState = true)
    (hge : LONG_PRESS_MS ≤ now - s.upButtonStart) :
    handleButtons now true true s = { s with lastUpState := true } := by
  simp [handleButtons, upEdge, upLongPress, downEdge, downLongPress,
        dualButtonChecks, hsl, hup, hdn, not_lt.mpr hge]

/-- Poll observing an UP release before LONG_PRESS_MS in the Manual
regime: the short-press increment applies. -/
theorem tick_up_release_short_manual (now : ℕ) (s : Sys)
    (hsl : s.displaySleepMode = false) (hup : s.lastUpState = false)
    (hdn : s.lastDownState = true) (hfg : s.freezeGuardEnabled = false)
    (hlt : now - s.upButtonStart < LONG_PRESS_MS) :
    handleButtons now true true s
      = { s with targetTemp := min 90 (s.targetTemp + 1), lastUpState := true } := by
  simp [handleButtons, upEdge, upLongPress, downEdge, downLongPress,
        dualButtonChecks, hsl, hup, hdn, hfg, hlt]

/-- Poll observing an UP release before LONG_PRESS_MS under FreezeGuard:
the short press is a no-op. -/
theorem tick_up_release_short_fg (now : ℕ) (s : Sys)
    (hsl : s.displaySleepMode = false) (hup : s.lastUpState = false)
    (hdn : s.lastDownState = true) (hfg : s.freezeGuardEnabled = true)
    (hlt : now - s.upButtonStart < LONG_PRESS_MS) :
    handleButtons now true true s = { s with lastUpState := true } := by
  simp [handleButtons, upEdge, upLongPress, downEdge, downLongPress,
        dualButtonChecks, hsl, hup, hdn, hfg, hlt]

end RV

namespace RV

/-- Polls while UP is held after the long press has been latched change
nothing but the activity time. -/
theorem run_up_hold_handled (mids : List ℕ) : ∀ s : Sys,
    s.displaySleepMode = false → s.lastUpState = false →
    s.lastDownState = true → s.longPressHandled = true →
    (∃ a, runButtons s (mids.map (fun t => ⟨t, false, true⟩))
        = { s with lastActivityTime := a }) ∧
    countChangesBy (fun x => x.heaterEnabled) s
        (mids.map (fun t => ⟨t, false, true⟩)) = 0 ∧
    countChangesBy (fun x => x.freezeGuardEnabled) s
        (mids.map (fun t => ⟨t, false, true⟩)) = 0 := by
  induction mids with
  | nil =>
      intro s h1 h2 h3 h4
      exact ⟨⟨s.lastActivityTime, rfl⟩, rfl, rfl⟩
  | cons t ts ih =>
      intro s h1 h2 h3 h4
      have e := tick_up_hold t s h1 h2 h3 (Or.inl h4)
      obtain ⟨⟨a, ha⟩, hc1, hc2⟩ := ih { s with lastActivityTime := t } h1 h2 h3 h4
      refine ⟨⟨a, ?_⟩, ?_, ?_⟩
      · simp only [List.map_cons, runButtons, e]
        exact ha
      · simp only [List.map_cons, countChangesBy, e]
        simpa using hc1
      · simp only [List.map_cons, countChangesBy, e]
        simpa using hc2

/-- Polls while UP is held, all earlier than LONG_PRESS_MS after the
recorded press start, change nothing but the activity time. -/
theorem run_up_hold_nofire (mids : List ℕ) : ∀ s : Sys,
    s.displaySleepMode = false → s.lastUpState = false →
    s.lastDownState = true → s.longPressHandled = false →
    (∀ t ∈ mids, t - s.upButtonStart < LONG_PRESS_MS) →
    (∃ a, runButtons s (mids.map (fun t => ⟨t, false, true⟩))
        = { s with lastActivityTime := a }) ∧
    countChangesBy (fun x => x.heaterEnabled) s
        (mids.map (fun t => ⟨t, false, true⟩)) = 0 ∧
    countChangesBy (fun x => x.freezeGuardEnabled) s
        (mids.map (fun t => ⟨t, false, true⟩)) = 0 := by
  induction mids with
  | nil =>
      intro s h1 h2 h3 h4 h5
      exact ⟨⟨s.lastActivityTime, rfl⟩, rfl, rfl⟩
  | cons t ts ih =>
      intro s h1 h2 h3 h4 h5
      have e := tick_up_hold t s h1 h2 h3 (Or.inr (h5 t (by simp)))
      obtain ⟨⟨a, ha⟩, hc1, hc2⟩ := ih { s with lastActivityTime := t } h1 h2 h3 h4
        (fun x hx => h5 x (by simp [hx]))
      refine ⟨⟨a, ?_⟩, ?_, ?_⟩
      · simp only [List.map_cons, runButtons, e]
        exact ha
      · simp only [List.map_cons, countChangesBy, e]
        simpa using hc1
      · simp only [List.map_cons, countChangesBy, e]
        simpa using hc2

/-- Polls while UP is held in the Manual regime, the latch still clear and
some poll at or past LONG_PRESS_MS: the heater toggles exactly once. -/
theorem run_up_hold_fire (mids : List ℕ) : ∀ s : Sys,
    s.displaySleepMode = false → s.lastUpState = false →
    s.lastDownState = true → s.longPressHandled = false →
    s.freezeGuardEnabled = false →
    (∃ t ∈ mids, LONG_PRESS_MS ≤ t - s.upButtonStart) →
    (∃ a, runButtons s (mids.map (fun t => ⟨t, false, true⟩))
        = { s with lastActivityTime := a, heaterEnabled := !s.heaterEnabled,
                   heaterPin := !s.heaterEnabled, longPressHandled := true }) ∧
    countChangesBy (fun x => x.heaterEnabled) s
        (mids.map (fun t => ⟨t, false, true⟩)) = 1 ∧
    countChangesBy (fun x => x.freezeGuardEnabled) s
        (mids.map (fun t => ⟨t, false, true⟩)) = 0 := by
  induction mids with
  | nil =>
      intro s _ _ _ _ _ hfire
      simp at hfire
  | cons t ts ih =>
      intro s h1 h2 h3 h4 hfg hfire
      by_cases hge : LONG_PRESS_MS ≤ t - s.upButtonStart
      · have e := tick_up_fire t s h1 h2 h3 h4 hfg hge
        obtain ⟨⟨a, ha⟩, hc1, hc2⟩ := run_up_hold_handled ts
          { s with lastActivityTime := t, heaterEnabled := !s.heaterEnabled,
                   heaterPin := !s.heaterEnabled, longPressHandled := true }
          h1 h2 h3 rfl
        refine ⟨⟨a, ?_⟩, ?_, ?_⟩
        · simp only [List.map_cons, runButtons, e]
          exact ha
        · simp only [List.map_cons, countChangesBy, e]
          rw [hc1]
          simp
        · simp only [List.map_cons, countChangesBy, e]
          rw [hc2]
          simp
      · obtain ⟨x, hx, hxge⟩ := hfire
        rcases List.mem_cons.mp hx with rfl | hx2
        · exact absurd hxge hge
        have e := tick_up_hold t s h1 h2 h3 (Or.inr (not_le.mp hge))
        obtain ⟨⟨a, ha⟩, hc1, hc2⟩ := ih { s with lastActivityTime := t }
          h1 h2 h3 h4 hfg ⟨x, hx2, hxge⟩
        refine ⟨⟨a, ?_⟩, ?_, ?_⟩
        · simp only [List.map_cons, runButtons, e]
          exact ha
        · simp only [List.map_cons, countChangesBy, e]
          simpa using hc1
        · simp only [List.map_cons, countChangesBy, e]
          simpa using hc2

/-- Polls while UP is held under FreezeGuard with some poll at or past
LONG_PRESS_MS: the latch is set but the heater toggle is suppressed. -/
theorem run_up_hold_fire_fg (mids : List ℕ) : ∀ s : Sys,
    s.displaySleepMode = false → s.lastUpState = false →
    s.lastDownState = true → s.longPressHandled = false →
    s.freezeGuardEnabled = true →
    (∃ t ∈ mids, LONG_PRESS_MS ≤ t - s.upButtonStart) →
    (∃ a, runButtons s (mids.map (fun t => ⟨t, false, true⟩))
        = { s with lastActivityTime := a, longPressHandled := true }) ∧
    countChangesBy (fun x => x.heaterEnabled) s
        (mids.map (fun t => ⟨t, false, true⟩)) = 0 ∧
    countChangesBy (fun x => x.freezeGuardEnabled) s
        (mids.map (fun t => ⟨t, false, true⟩)) = 0 := by
  induction mids with
  | nil =>
      intro s _ _ _ _ _ hfire
      simp at hfire
  | cons t ts ih =>
      intro s h1 h2 h3 h4 hfg hfire
      by_cases hge : LONG_PRESS_MS ≤ t - s.upButtonStart
      · have e := tick_up_fire_fg t s h1 h2 h3 h4 hfg hge
        obtain ⟨⟨a, ha⟩, hc1, hc2⟩ := run_up_hold_handled ts
          { s with lastActivityTime := t, longPressHandled := true }
          h1 h2 h3 rfl
        refine ⟨⟨a, ?_⟩, ?_, ?_⟩
        · simp only [List.map_cons, runButtons, e]
          exact ha
        · simp only [List.map_cons, countChangesBy, e]
          simpa using hc1
        · simp only [List.map_cons, countChangesBy, e]
          simpa using hc2
      · obtain ⟨x, hx, hxge⟩ := hfire
        rcases List.mem_cons.mp hx with rfl | hx2
        · exact absurd hxge hge
        have e := tick_up_hold t s h1 h2 h3 (Or.inr (not_le.mp hge))
        obtain ⟨⟨a, ha⟩, hc1, hc2⟩ := ih { s with lastActivityTime := t }
          h1 h2 h3 h4 hfg ⟨x, hx2, hxge⟩
        refine ⟨⟨a, ?_⟩, ?_, ?_⟩
        · simp only [List.map_cons, runButtons, e]
          exact ha
        · simp only [List.map_cons, countChangesBy, e]
          simpa using hc1
        · simp only [List.map_cons, countChangesBy, e]
          simpa using hc2

end RV

namespace RV

/-- Poll observing the DOWN press edge while UP stays released. -/
theorem tick_down_press (now : ℕ) (s : Sys) (hsl : s.displaySleepMode = false)
    (hup : s.lastUpState = true) (hdn : s.lastDownState = true) :
    handleButtons now true false s
      = { s with lastActivityTime := now, downButtonStart := now,
                 longPressHandled := false, lastDownState := false } := by
  simp [handleButtons, upEdge, upLongPress, downEdge, downLongPress,
        dualButtonChecks, hsl, hup, hdn, Nat.sub_self, LONG_PRESS_MS,
        SLEEP_PRESS_MS, WIFI_RESET_MS]

/-- Poll while DOWN stays held, before its long press fires or after the
latch is set. -/
theorem tick_down_hold (now : ℕ) (s : Sys) (hsl : s.displaySleepMode = false)
    (hup : s.lastUpState = true) (hdn : s.lastDownState = false)
    (hno : s.longPressHandled = true ∨ now - s.downButtonStart < LONG_PRESS_MS) :
    handleButtons now true false s = { s with lastActivityTime := now } := by
  rcases hno with h | h
  · simp [handleButtons, upEdge, upLongPress, downEdge, downLongPress,
          dualButtonChecks, hsl, hup, hdn, h]
  · simp [handleButtons, upEdge, upLongPress, downEdge, downLongPress,
          dualButtonChecks, hsl, hup, hdn, not_le.mpr h]

/-- Poll at which the DOWN long press fires: the FreezeGuard regime is
toggled and persisted, in either regime. -/
theorem tick_down_fire (now : ℕ) (s : Sys) (hsl : s.displaySleepMode = false)
    (hup : s.lastUpState = true) (hdn : s.lastDownState = false)
    (hha : s.longPressHandled = false)
    (hge : LONG_PRESS_MS ≤ now - s.downButtonStart) :
    handleButtons now true false s
      = { s with lastActivityTime := now,
                 freezeGuardEnabled := !s.freezeGuardEnabled,
                 eepromFreezeGuard := !s.freezeGuardEnabled,
                 longPressHandled := true } := by
  simp [handleButtons, upEdge, upLongPress, downEdge, downLongPress,
        dualButtonChecks, hsl, hup, hdn, hha, hge]

/-- Poll observing the DOWN release after at least LONG_PRESS_MS: no
short-press action is applied. -/
theorem tick_down_release_long (now : ℕ) (s : Sys)
    (hsl : s.displaySleepMode = false) (hup : s.lastUpState = true)
    (hdn : s.lastDownState = false)
    (hge : LONG_PRESS_MS ≤ now - s.downButtonStart) :
    handleButtons now true true s = { s with lastDownState := true } := by
  simp [handleButtons, upEdge, upLongPress, downEdge, downLongPress,
        dualButtonChecks, hsl, hup, hdn, not_lt.mpr hge]

/-- Poll observing a DOWN release before LONG_PRESS_MS in the Manual
regime: the short-press decrement applies. -/
theorem tick_down_release_short_manual (now : ℕ) (s : Sys)
    (hsl : s.displaySleepMode = false) (hup : s.lastUpState = true)
    (hdn : s.lastDownState = false) (hfg : s.freezeGuardEnabled = false)
    (hlt : now - s.downButtonStart < LONG_PRESS_MS) :
    handleButtons now true true s
      = { s with targetTemp := max 50 (s.targetTemp - 1),
                 lastDownState := true } := by
  simp [handleButtons, upEdge, upLongPress, downEdge, downLongPress,
        dualButtonChecks, hsl, hup, hdn, hfg, hlt]

/-- Polls while DOWN is held after the latch is set. -/
theorem run_down_hold_handled (mids : List ℕ) : ∀ s : Sys,
    s.displaySleepMode = false → s.lastUpState = true →
    s.lastDownState = false → s.longPressHandled = true →
    (∃ a, runButtons s (mids.map (fun t => ⟨t, true, false⟩))
        = { s with lastActivityTime := a }) ∧
    countChangesBy (fun x => x.heaterEnabled) s
        (mids.map (fun t => ⟨t, true, false⟩)) = 0 ∧
    countChangesBy (fun x => x.freezeGuardEnabled) s
        (mids.map (fun t => ⟨t, true, false⟩)) = 0 := by
  induction mids with
  | nil =>
      intro s h1 h2 h3 h4
      exact ⟨⟨s.lastActivityTime, rfl⟩, rfl, rfl⟩
  | cons t ts ih =>
      intro s h1 h2 h3 h4
      have e := tick_down_hold t s h1 h2 h3 (Or.inl h4)
      obtain ⟨⟨a, ha⟩, hc1, hc2⟩ := ih { s with lastActivityTime := t } h1 h2 h3 h4
      refine ⟨⟨a, ?_⟩, ?_, ?_⟩
      · simp only [List.map_cons, runButtons, e]
        exact ha
      · simp only [List.map_cons, countChangesBy, e]
        simpa using hc1
      · simp only [List.map_cons, countChangesBy, e]
        simpa using hc2

/-- Polls while DOWN is held with the latch clear and some poll at or past
LONG_PRESS_MS: FreezeGuard is toggled and persisted exactly once. -/
theorem run_down_hold_fire (mids : List ℕ) : ∀ s : Sys,
    s.displaySleepMode = false → s.lastUpState = true →
    s.lastDownState = false → s.longPressHandled = false →
    (∃ t ∈ mids, LONG_PRESS_MS ≤ t - s.downButtonStart) →
    (∃ a, runButtons s (mids.map (fun t => ⟨t, true, false⟩))
        = { s with lastActivityTime := a,
                   freezeGuardEnabled := !s.freezeGuardEnabled,
                   eepromFreezeGuard := !s.freezeGuardEnabled,
                   longPressHandled := true }) ∧
    countChangesBy (fun x => x.heaterEnabled) s
        (mids.map (fun t => ⟨t, true, false⟩)) = 0 ∧
    countChangesBy (fun x => x.freezeGuardEnabled) s
        (mids.map (fun t => ⟨t, true, false⟩)) = 1 := by
  induction mids with
  | nil =>
      intro s _ _ _ _ hfire
      simp at hfire
  | cons t ts ih =>
      intro s h1 h2 h3 h4 hfire
      by_cases hge : LONG_PRESS_MS ≤ t - s.downButtonStart
      · have e := tick_down_fire t s h1 h2 h3 h4 hge
        obtain ⟨⟨a, ha⟩, hc1, hc2⟩ := run_down_hold_handled ts
          { s with lastActivityTime := t,
                   freezeGuardEnabled := !s.freezeGuardEnabled,
                   eepromFreezeGuard := !s.freezeGuardEnabled,
                   longPressHandled := true }
          h1 h2 h3 rfl
        refine ⟨⟨a, ?_⟩, ?_, ?_⟩
        · simp only [List.map_cons, runButtons, e]
          exact ha
        · simp only [List.map_cons, countChangesBy, e]
          rw [hc1]
          simp
        · simp only [List.map_cons, countChangesBy, e]
          rw [hc2]
          simp
      · obtain ⟨x, hx, hxge⟩ := hfire
        rcases List.mem_cons.mp hx with rfl | hx2
        · exact absurd hxge hge
        have e := tick_down_hold t s h1 h2 h3 (Or.inr (not_le.mp hge))
        obtain ⟨⟨a, ha⟩, hc1, hc2⟩ := ih { s with lastActivityTime := t }
          h1 h2 h3 h4 ⟨x, hx2, hxge⟩
        refine ⟨⟨a, ?_⟩, ?_, ?_⟩
        · simp only [List.map_cons, runButtons, e]
          exact ha
        · simp only [List.map_cons, countChangesBy, e]
          simpa using hc1
        · simp only [List.map_cons, countChangesBy, e]
          simpa using hc2

end RV

namespace RV

/-- A full isolated UP press in the Manual regime: press edge, held polls
with one at or past LONG_PRESS_MS, release at or past LONG_PRESS_MS. -/
theorem run_press_up_manual (s : Sys) (t0 tk : ℕ) (mids : List ℕ)
    (hsl : s.displaySleepMode = false) (hup : s.lastUpState = true)
    (hdn : s.lastDownState = true) (hfg : s.freezeGuardEnabled = false)
    (hfire : ∃ t ∈ mids, LONG_PRESS_MS ≤ t - t0)
    (hrel : LONG_PRESS_MS ≤ tk - t0) :
    (∃ a, runButtons s (pressInputsUp t0 mids tk)
        = { s with lastActivityTime := a, upButtonStart := t0,
                   longPressHandled := true, lastUpState := true,
                   heaterEnabled := !s.heaterEnabled,
                   heaterPin := !s.heaterEnabled }) ∧
    countChangesBy (fun x => x.heaterEnabled) s (pressInputsUp t0 mids tk) = 1 ∧
    countChangesBy (fun x => x.freezeGuardEnabled) s (pressInputsUp t0 mids tk) = 0 := by
  have e0 := tick_up_press t0 s hsl hup hdn
  obtain ⟨⟨a, ha⟩, hc1, hc2⟩ := run_up_hold_fire mids
    { s with lastActivityTime := t0, upButtonStart := t0,
             longPressHandled := false, lastUpState := false }
    hsl rfl hdn rfl hfg hfire
  have ha' : runButtons
      { s with lastActivityTime := t0, upButtonStart := t0,
               longPressHandled := false, lastUpState := false }
      (mids.map (fun t => ⟨t, false, true⟩))
      = { s with lastActivityTime := a, upButtonStart := t0,
                 longPressHandled := true, lastUpState := false,
                 heaterEnabled := !s.heaterEnabled,
                 heaterPin := !s.heaterEnabled } := by
    rw [ha]
  have e2 := tick_up_release_long tk
    { s with lastActivityTime := a, upButtonStart := t0,
             longPressHandled := true, lastUpState := false,
             heaterEnabled := !s.heaterEnabled,
             heaterPin := !s.heaterEnabled }
    hsl rfl hdn hrel
  refine ⟨⟨a, ?_⟩, ?_, ?_⟩
  · simp only [pressInputsUp, runButtons, e0, runButtons_append, ha', e2]
  · simp only [pressInputsUp, countChangesBy, runButtons, e0,
      countChangesBy_append, ha', e2, hc1]
    simp
  · simp only [pressInputsUp, countChangesBy, runButtons, e0,
      countChangesBy_append, ha', e2, hc2]
    simp

/-- A full isolated UP press under FreezeGuard: the long press latches but
toggles nothing, and the release applies no increment. -/
theorem run_press_up_fg (s : Sys) (t0 tk : ℕ) (mids : List ℕ)
    (hsl : s.displaySleepMode = false) (hup : s.lastUpState = true)
    (hdn : s.lastDownState = true) (hfg : s.freezeGuardEnabled = true)
    (hfire : ∃ t ∈ mids, LONG_PRESS_MS ≤ t - t0)
    (hrel : LONG_PRESS_MS ≤ tk - t0) :
    (∃ a, runButtons s (pressInputsUp t0 mids tk)
        = { s with lastActivityTime := a, upButtonStart := t0,
                   longPressHandled := true, lastUpState := true }) ∧
    countChangesBy (fun x => x.heaterEnabled) s (pressInputsUp t0 mids tk) = 0 ∧
    countChangesBy (fun x => x.freezeGuardEnabled) s (pressInputsUp t0 mids tk) = 0 := by
  have e0 := tick_up_press t0 s hsl hup hdn
  obtain ⟨⟨a, ha⟩, hc1, hc2⟩ := run_up_hold_fire_fg mids
    { s with lastActivityTime := t0, upButtonStart := t0,
             longPressHandled := false, lastUpState := false }
    hsl rfl hdn rfl hfg hfire
  have ha' : runButtons
      { s with lastActivityTime := t0, upButtonStart := t0,
               longPressHandled := false, lastUpState := false }
      (mids.map (fun t => ⟨t, false, true⟩))
      = { s with lastActivityTime := a, upButtonStart := t0,
                 longPressHandled := true, lastUpState := false } := by
    rw [ha]
  have e2 := tick_up_release_long tk
    { s with lastActivityTime := a, upButtonStart := t0,
             longPressHandled := true, lastUpState := false }
    hsl rfl hdn hrel
  refine ⟨⟨a, ?_⟩, ?_, ?_⟩
  · simp only [pressInputsUp, runButtons, e0, runButtons_append, ha', e2]
  · simp only [pressInputsUp, countChangesBy, runButtons, e0,
      countChangesBy_append, ha', e2, hc1]
    simp
  · simp only [pressInputsUp, countChangesBy, runButtons, e0,
      countChangesBy_append, ha', e2, hc2]
    simp

/-- A full isolated DOWN press (either regime): FreezeGuard is toggled and
persisted exactly once, and the release applies no decrement. -/
theorem run_press_down (s : Sys) (t0 tk : ℕ) (mids : List ℕ)
    (hsl : s.displaySleepMode = false) (hup : s.lastUpState = true)
    (hdn : s.lastDownState = true)
    (hfire : ∃ t ∈ mids, LONG_PRESS_MS ≤ t - t0)
    (hrel : LONG_PRESS_MS ≤ tk - t0) :
    (∃ a, runButtons s (pressInputsDown t0 mids tk)
        = { s with lastActivityTime := a, downButtonStart := t0,
                   longPressHandled := true, lastDownState := true,
                   freezeGuardEnabled := !s.freezeGuardEnabled,
                   eepromFreezeGuard := !s.freezeGuardEnabled }) ∧
    countChangesBy (fun x => x.heaterEnabled) s (pressInputsDown t0 mids tk) = 0 ∧
    countChangesBy (fun x => x.freezeGuardEnabled) s (pressInputsDown t0 mids tk) = 1 := by
  have e0 := tick_down_press t0 s hsl hup hdn
  obtain ⟨⟨a, ha⟩, hc1, hc2⟩ := run_down_hold_fire mids
    { s with lastActivityTime := t0, downButtonStart := t0,
             longPressHandled := false, lastDownState := false }
    hsl hup rfl rfl hfire
  have ha' : runButtons
      { s with lastActivityTime := t0, downButtonStart := t0,
               longPressHandled := false, lastDownState := false }
      (mids.map (fun t => ⟨t, true, false⟩))
      = { s with lastActivityTime := a, downButtonStart := t0,
                 longPressHandled := true, lastDownState := false,
                 freezeGuardEnabled := !s.freezeGuardEnabled,
                 eepromFreezeGuard := !s.freezeGuardEnabled } := by
    rw [ha]
  have e2 := tick_down_release_long tk
    { s with lastActivityTime := a, downButtonStart := t0,
             longPressHandled := true, lastDownState := false,
             freezeGuardEnabled := !s.freezeGuardEnabled,
             eepromFreezeGuard := !s.freezeGuardEnabled }
    hsl hup rfl hrel
  refine ⟨⟨a, ?_⟩, ?_, ?_⟩
  · simp only [pressInputsDown, runButtons, e0, runButtons_append, ha', e2]
  · simp only [pressInputsDown, countChangesBy, runButtons, e0,
      countChangesBy_append, ha', e2, hc1]
    simp
  · simp only [pressInputsDown, countChangesBy, runButtons, e0,
      countChangesBy_append, ha', e2, hc2]
    simp

end RV

namespace RV

/-- Claim C5: an isolated single-button press held at least LONG_PRESS_MS
(and polled at least once at or past that bound) fires its long-press
event exactly once, latched by longPressHandled: UP toggles heaterEnabled
(a no-op under FreezeGuard), DOWN toggles the FreezeGuard regime and
persists the flag in either regime, and the release never additionally
applies the short-press increment or decrement. -/
theorem single_button_long_press (s : Sys) (t0 tk : ℕ) (mids : List ℕ)
    (hsl : s.displaySleepMode = false) (hup : s.lastUpState = true)
    (hdn : s.lastDownState = true)
    (hfire : ∃ t ∈ mids, t0 + LONG_PRESS_MS ≤ t)
    (hrel : t0 + LONG_PRESS_MS ≤ tk) :
    (s.freezeGuardEnabled = false →
      (runButtons s (pressInputsUp t0 mids tk)).heaterEnabled
          = !s.heaterEnabled ∧
      (runButtons s (pressInputsUp t0 mids tk)).heaterPin = !s.heaterEnabled ∧
      (runButtons s (pressInputsUp t0 mids tk)).targetTemp = s.targetTemp ∧
      countChangesBy (fun x => x.heaterEnabled) s (pressInputsUp t0 mids tk)
          = 1) ∧
    (s.freezeGuardEnabled = true →
      (runButtons s (pressInputsUp t0 mids tk)).heaterEnabled
          = s.heaterEnabled ∧
      (runButtons s (pressInputsUp t0 mids tk)).targetTemp = s.targetTemp ∧
      countChangesBy (fun x => x.heaterEnabled) s (pressInputsUp t0 mids tk)
          = 0) ∧
    ((runButtons s (pressInputsDown t0 mids tk)).freezeGuardEnabled
        = !s.freezeGuardEnabled ∧
      (runButtons s (pressInputsDown t0 mids tk)).eepromFreezeGuard
        = !s.freezeGuardEnabled ∧
      (runButtons s (pressInputsDown t0 mids tk)).targetTemp = s.targetTemp ∧
      countChangesBy (fun x => x.freezeGuardEnabled) s
          (pressInputsDown t0 mids tk) = 1) := by
  have hfire' : ∃ t ∈ mids, LONG_PRESS_MS ≤ t - t0 := by
    obtain ⟨t, hm, hle⟩ := hfire
    exact ⟨t, hm, by omega⟩
  have hrel' : LONG_PRESS_MS ≤ tk - t0 := by omega
  refine ⟨fun hfg => ?_, fun hfg => ?_, ?_⟩
  · obtain ⟨⟨a, ha⟩, hc1, hc2⟩ :=
      run_press_up_manual s t0 tk mids hsl hup hdn hfg hfire' hrel'
    exact ⟨by rw [ha], by rw [ha], by rw [ha], hc1⟩
  · obtain ⟨⟨a, ha⟩, hc1, hc2⟩ :=
      run_press_up_fg s t0 tk mids hsl hup hdn hfg hfire' hrel'
    exact ⟨by rw [ha], by rw [ha], hc1⟩
  · obtain ⟨⟨a, ha⟩, hc1, hc2⟩ :=
      run_press_down s t0 tk mids hsl hup hdn hfire' hrel'
    exact ⟨by rw [ha], by rw [ha], by rw [ha], hc2⟩

/-- Witness for C5: press at 100 ms, a held poll at 1200 ms and release at
1500 ms on the freshly booted Manual state. -/
theorem single_button_long_press_witness :
    (runButtons (initSys false)
        (pressInputsUp 100 [1200] 1500)).heaterEnabled = true ∧
    countChangesBy (fun x => x.heaterEnabled) (initSys false)
        (pressInputsUp 100 [1200] 1500) = 1 ∧
    (runButtons (initSys false)
        (pressInputsDown 100 [1200] 1500)).freezeGuardEnabled = true ∧
    (runButtons (initSys false)
        (pressInputsDown 100 [1200] 1500)).targetTemp = 72 := by
  have h := single_button_long_press (initSys false) 100 1500 [1200]
    rfl rfl rfl ⟨1200, by simp, by decide⟩ (by decide)
  exact ⟨(h.1 rfl).1, (h.1 rfl).2.2.2, h.2.2.1, h.2.2.2.2.1⟩

end RV

namespace RV

/-- Claim C4 (code bug evaluation): with both buttons held continuously
and handleButtons polled at 0, 1000, 2000, 2250, 2500, 5000 and 5250 ms,
the display enters sleep twice during the window from 2000 up to 5000 ms
(entered at 2000 ms, woken by the level-triggered wake branch at 2250 ms,
re-entered at 2500 ms), and past 5000 ms the stored credentials are
cleared and the device restarts. -/
theorem dual_hold_sleep_reentry_bug :
    sleepEntries (initSys false) bothHeldTrace = 2 ∧
    (runButtons (initSys false) bothHeldTrace).wifiCredentialsCleared = true ∧
    (runButtons (initSys false) bothHeldTrace).restarted = true := by
  decide

/-- upEdge never touches the FreezeGuard flag. -/
theorem upEdge_fg_eq (now : ℕ) (u : Bool) (s : Sys) :
    (upEdge now u s).freezeGuardEnabled = s.freezeGuardEnabled := by
  simp only [upEdge]
  split_ifs <;> rfl

/-- upLongPress never touches the FreezeGuard flag. -/
theorem upLongPress_fg_eq (now : ℕ) (u : Bool) (s : Sys) :
    (upLongPress now u s).freezeGuardEnabled = s.freezeGuardEnabled := by
  simp only [upLongPress]
  split_ifs <;> rfl

/-- upLongPress never touches the target. -/
theorem upLongPress_target (now : ℕ) (u : Bool) (s : Sys) :
    (upLongPress now u s).targetTemp = s.targetTemp := by
  simp only [upLongPress]
  split_ifs <;> rfl

/-- downLongPress never touches the target. -/
theorem downLongPress_target (now : ℕ) (d : Bool) (s : Sys) :
    (downLongPress now d s).targetTemp = s.targetTemp := by
  simp only [downLongPress]
  split_ifs <;> rfl

/-- The dual-button checks never touch the target. -/
theorem dualButtonChecks_target (now : ℕ) (u d : Bool) (s : Sys) :
    (dualButtonChecks now u d s).targetTemp = s.targetTemp := by
  simp only [dualButtonChecks]
  split_ifs <;> rfl

/-- Under FreezeGuard upEdge leaves the target unchanged. -/
theorem upEdge_target_fg (now : ℕ) (u : Bool) (s : Sys)
    (hfg : s.freezeGuardEnabled = true) :
    (upEdge now u s).targetTemp = s.targetTemp := by
  simp only [upEdge, hfg]
  split_ifs <;> rfl

/-- Under FreezeGuard downEdge leaves the target unchanged. -/
theorem downEdge_target_fg (now : ℕ) (d : Bool) (s : Sys)
    (hfg : s.freezeGuardEnabled = true) :
    (downEdge now d s).targetTemp = s.targetTemp := by
  simp only [downEdge, hfg]
  split_ifs <;> rfl

/-- Counterexample for C6: with FreezeGuard active the external /target
web command still moves targetTemp, here from 72 to 73. -/
theorem freeze_guard_web_target_counterexample :
    (initSys true).freezeGuardEnabled = true ∧
    (initSys true).targetTemp = 72 ∧
    (handleTarget 1 (initSys true)).targetTemp = 73 := by
  refine ⟨rfl, rfl, ?_⟩
  norm_num [handleTarget, initSys]

/-- Claim C6 amended: while FreezeGuard is active every button path
through handleButtons leaves targetTemp unchanged, but the external
/target command applies its delta, clamped to the range 50 to 90,
regardless of the regime. -/
theorem freeze_guard_target_adjust_amended (now : ℕ) (u d : Bool) (s : Sys)
    (change : ℚ) (hfg : s.freezeGuardEnabled = true) :
    (handleButtons now u d s).targetTemp = s.targetTemp ∧
    (handleTarget change s).targetTemp
      = max 50 (min 90 (s.targetTemp + change)) := by
  constructor
  · have chain : ∀ s' : Sys, s'.freezeGuardEnabled = true →
        (dualButtonChecks now u d (downLongPress now d (downEdge now d
          (upLongPress now u (upEdge now u s'))))).targetTemp
          = s'.targetTemp := by
      intro s' h
      have hfgu : (upLongPress now u (upEdge now u s')).freezeGuardEnabled
          = true := by
        rw [upLongPress_fg_eq, upEdge_fg_eq]
        exact h
      rw [dualButtonChecks_target, downLongPress_target,
          downEdge_target_fg now d _ hfgu, upLongPress_target,
          upEdge_target_fg now u s' h]
    simp only [handleButtons]
    split_ifs <;> first | rfl | exact chain _ hfg
  · simp only [handleTarget]
    split_ifs with h1 h2 h3
    · exact absurd h2 (by norm_num)
    · rw [min_eq_right (by linarith : s.targetTemp + change ≤ (90:ℚ)),
          max_eq_left (by linarith)]
    · rw [min_eq_left (by linarith : (90:ℚ) ≤ s.targetTemp + change)]
      norm_num
    · rw [min_eq_right (by linarith : s.targetTemp + change ≤ (90:ℚ)),
          max_eq_right (by linarith)]

/-- Witness for C6 amended at the persisted FreezeGuard boot state. -/
theorem freeze_guard_target_adjust_amended_witness :
    (handleButtons 0 true true (initSys true)).targetTemp = 72 ∧
    (handleTarget 1 (initSys true)).targetTemp = max 50 (min 90 (72 + 1)) := by
  have h := freeze_guard_target_adjust_amended 0 true true (initSys true) 1 rfl
  exact ⟨h.1, h.2⟩

end RV

namespace RV

/-- The only target values upEdge can produce. -/
theorem upEdge_target_cases (now : ℕ) (u : Bool) (s : Sys) :
    (upEdge now u s).targetTemp = s.targetTemp ∨
    (upEdge now u s).targetTemp = min 90 (s.targetTemp + 1) := by
  simp only [upEdge]
  split_ifs <;> simp

/-- The only target values downEdge can produce. -/
theorem downEdge_target_cases (now : ℕ) (d : Bool) (s : Sys) :
    (downEdge now d s).targetTemp = s.targetTemp ∨
    (downEdge now d s).targetTemp = max 50 (s.targetTemp - 1) := by
  simp only [downEdge]
  split_ifs <;> simp

/-- upEdge keeps the target inside the range 50 to 90. -/
theorem upEdge_target_range (now : ℕ) (u : Bool) (s : Sys)
    (h1 : 50 ≤ s.targetTemp) (h2 : s.targetTemp ≤ 90) :
    50 ≤ (upEdge now u s).targetTemp ∧ (upEdge now u s).targetTemp ≤ 90 := by
  rcases upEdge_target_cases now u s with h | h <;> rw [h]
  · exact ⟨h1, h2⟩
  · exact ⟨le_min (by norm_num) (by linarith), min_le_left _ _⟩

/-- downEdge keeps the target inside the range 50 to 90. -/
theorem downEdge_target_range (now : ℕ) (d : Bool) (s : Sys)
    (h1 : 50 ≤ s.targetTemp) (h2 : s.targetTemp ≤ 90) :
    50 ≤ (downEdge now d s).targetTemp ∧ (downEdge now d s).targetTemp ≤ 90 := by
  rcases downEdge_target_cases now d s with h | h <;> rw [h]
  · exact ⟨h1, h2⟩
  · exact ⟨le_max_left _ _, max_le (by norm_num) (by linarith)⟩

/-- A handleButtons poll keeps the target inside the range 50 to 90. -/
theorem handleButtons_target_range (now : ℕ) (u d : Bool) (s : Sys)
    (h1 : 50 ≤ s.targetTemp) (h2 : s.targetTemp ≤ 90) :
    50 ≤ (handleButtons now u d s).targetTemp ∧
    (handleButtons now u d s).targetTemp ≤ 90 := by
  have chain : ∀ s' : Sys, 50 ≤ s'.targetTemp → s'.targetTemp ≤ 90 →
      50 ≤ (dualButtonChecks now u d (downLongPress now d (downEdge now d
        (upLongPress now u (upEdge now u s'))))).targetTemp ∧
      (dualButtonChecks now u d (downLongPress now d (downEdge now d
        (upLongPress now u (upEdge now u s'))))).targetTemp ≤ 90 := by
    intro s' k1 k2
    have r1 := upEdge_target_range now u s' k1 k2
    have r2 := downEdge_target_range now d (upLongPress now u (upEdge now u s'))
      (by rw [upLongPress_target]; exact r1.1)
      (by rw [upLongPress_target]; exact r1.2)
    rw [dualButtonChecks_target, downLongPress_target]
    exact r2
  simp only [handleButtons]
  split_ifs <;> first | exact ⟨h1, h2⟩ | exact chain _ h1 h2

/-- Claim C10: targetTemp always lies in the range 50 to 90: it starts at
72, the /target handler clamps every supplied delta back into range,
every handleButtons poll preserves the range, and incrementing at 90
(web or button) leaves 90 while decrementing at 50 leaves 50. -/
theorem target_temp_range_invariant :
    ((initSys false).targetTemp = 72 ∧ 50 ≤ (72 : ℚ) ∧ (72 : ℚ) ≤ 90) ∧
    (∀ (change : ℚ) (s : Sys), 50 ≤ (handleTarget change s).targetTemp ∧
        (handleTarget change s).targetTemp ≤ 90) ∧
    (∀ (now : ℕ) (u d : Bool) (s : Sys), 50 ≤ s.targetTemp →
        s.targetTemp ≤ 90 → 50 ≤ (handleButtons now u d s).targetTemp ∧
        (handleButtons now u d s).targetTemp ≤ 90) ∧
    (∀ s : Sys, s.targetTemp = 90 → (handleTarget 1 s).targetTemp = 90) ∧
    (∀ s : Sys, s.targetTemp = 50 → (handleTarget (-1) s).targetTemp = 50) ∧
    (∀ (now : ℕ) (s : Sys), s.displaySleepMode = false →
        s.lastUpState = false → s.lastDownState = true →
        s.freezeGuardEnabled = false →
        now - s.upButtonStart < LONG_PRESS_MS → s.targetTemp = 90 →
        (handleButtons now true true s).targetTemp = 90) ∧
    (∀ (now : ℕ) (s : Sys), s.displaySleepMode = false →
        s.lastUpState = true → s.lastDownState = false →
        s.freezeGuardEnabled = false →
        now - s.downButtonStart < LONG_PRESS_MS → s.targetTemp = 50 →
        (handleButtons now true true s).targetTemp = 50) := by
  refine ⟨⟨rfl, by norm_num, by norm_num⟩, ?_, ?_, ?_, ?_, ?_, ?_⟩
  · intro change s
    simp only [handleTarget]
    split_ifs with h1 h2 h3
    · exact ⟨by norm_num, by norm_num⟩
    · exact ⟨by norm_num, by norm_num⟩
    · exact ⟨by norm_num, by norm_num⟩
    · push_neg at h1 h3
      exact ⟨h1, h3⟩
  · intro now u d s h1 h2
    exact handleButtons_target_range now u d s h1 h2
  · intro s h
    simp only [handleTarget, h]
    norm_num
  · intro s h
    simp only [handleTarget, h]
    norm_num
  · intro now s hsl hup hdn hfg hlt h
    rw [tick_up_release_short_manual now s hsl hup hdn hfg hlt]
    show min 90 (s.targetTemp + 1) = 90
    rw [h]
    norm_num
  · intro now s hsl hup hdn hfg hlt h
    rw [tick_down_release_short_manual now s hsl hup hdn hfg hlt]
    show max 50 (s.targetTemp - 1) = 50
    rw [h]
    norm_num

/-- Witness for C10 at concrete states and deltas. -/
theorem target_temp_range_invariant_witness :
    50 ≤ (handleTarget 100 (initSys false)).targetTemp ∧
    (handleTarget 1 { initSys false with targetTemp := 90 }).targetTemp = 90 ∧
    (handleTarget (-1) { initSys false with targetTemp := 50 }).targetTemp = 50 ∧
    50 ≤ (handleButtons 0 true true (initSys false)).targetTemp := by
  have h := target_temp_range_invariant
  exact ⟨(h.2.1 100 (initSys false)).1,
    h.2.2.2.1 _ rfl, h.2.2.2.2.1 _ rfl,
    (h.2.2.1 0 true true (initSys false) (by norm_num [initSys])
      (by norm_num [initSys])).1⟩

end RV

namespace RV

/-- Claim C7 (code bug evaluation): when the sensor returns NaN at seeding
and at every later tick, no valid temperature sample is ever obtained,
currentTemp keeps its initial numeric value 0.0, and the /data endpoint
reports the plain number 0 instead of the fault sentinel. -/
theorem telemetry_fault_sentinel_bug :
    neverValidRun.currentTemp = some 0 ∧
    handleDataCurrentTemp neverValidRun = TempField.number 0 ∧
    handleDataCurrentTemp neverValidRun ≠ TempField.fault := by
  decide

/-- Counterexample for C8: a NaN first temperature read is used as the
seed, filling every temperature slot with NaN, while the humidity slots
receive ten successive reads rather than copies of a single reading. -/
theorem seeding_uses_invalid_reading_counterexample :
    nanSeeded.tempReadings = List.replicate SAMPLES none ∧
    nanSeeded.humReadings
      = [some 50, some 51, some 51, some 51, some 51, some 51, some 51,
         some 51, some 51, some 51] := by
  decide

/-- Claim C8 amended: at first sensor initialization the temperature
buffer is seeded with SAMPLES copies of the first temperature reading,
converted but with no validity check (a NaN read seeds NaN into every
slot), the humidity buffer is filled with ten successive humidity reads,
the reported average is left at its initial value, and a fixed 8000 ms
warm-up delay elapses before the control loop begins reacting. -/
theorem seeding_amended (rawInitTemp : FVal) (humRead : ℕ → FVal) (fg : Bool) :
    (seedSensors rawInitTemp humRead (initSys fg)).tempReadings
        = List.replicate SAMPLES (c2f rawInitTemp) ∧
    (seedSensors rawInitTemp humRead (initSys fg)).humReadings
        = (List.range SAMPLES).map humRead ∧
    (seedSensors rawInitTemp humRead (initSys fg)).currentTemp = some 0 ∧
    SEED_WARMUP_DELAY_MS = 8000 := by
  exact ⟨rfl, rfl, rfl, rfl⟩

/-- The association loop makes at most fuel further attempts. -/
theorem wifiWait_le (conn : ℕ → Bool) :
    ∀ (fuel a : ℕ), wifiWait conn a fuel ≤ a + fuel := by
  intro fuel
  induction fuel with
  | zero => intro a; simp [wifiWait]
  | succ n ih =>
      intro a
      simp only [wifiWait]
      split
      · omega
      · have := ih (a + 1)
        omega

/-- Claim C9: at boot, a stored SSID shorter than two characters enters
Provisioning; otherwise the association loop runs with a budget of 30
attempts at 500 ms spacing, Normal mode on success, Provisioning on
exhaustion. -/
theorem boot_mode_selection (rom : ℕ → ℕ) (conn : ℕ → Bool) :
    ((loadStoredSSID rom).length < 2 →
      bootMode rom conn = BootMode.provisioning) ∧
    (2 ≤ (loadStoredSSID rom).length →
      wifiAttempts conn ≤ 30 ∧
      WIFI_RETRY_DELAY_MS = 500 ∧
      (conn (wifiAttempts conn) = true → bootMode rom conn = BootMode.normal) ∧
      (conn (wifiAttempts conn) = false →
        bootMode rom conn = BootMode.provisioning) ∧
      ((∀ k, conn k = false) →
        wifiAttempts conn = 30 ∧ bootMode rom conn = BootMode.provisioning)) := by
  constructor
  · intro h
    simp [bootMode, h]
  · intro hlen
    have hnlt : ¬ (loadStoredSSID rom).length < 2 := not_lt.mpr hlen
    refine ⟨?_, rfl, ?_, ?_, ?_⟩
    · have := wifiWait_le conn 30 0
      simpa [wifiAttempts] using this
    · intro h
      simp [bootMode, hnlt, h]
    · intro h
      simp [bootMode, hnlt, h]
    · intro h
      have ha : wifiAttempts conn = 30 := by
        simp [wifiAttempts, wifiWait, h]
      exact ⟨ha, by simp [bootMode, hnlt, h]⟩

/-- Witness for C9: a two-character stored SSID with immediate
association enters Normal mode. -/
theorem boot_mode_selection_witness :
    2 ≤ (loadStoredSSID (fun i => if i < 2 then 65 else 0)).length ∧
    bootMode (fun i => if i < 2 then 65 else 0) (fun _ => true)
      = BootMode.normal := by
  have h := boot_mode_selection (fun i => if i < 2 then 65 else 0)
    (fun _ => true)
  exact ⟨by decide, (h.2 (by decide)).2.2.1 rfl⟩

end RV
